import Mathlib

/-
  Verification of the nanocoder protocol layer (rust-port).

  Shallow embedding of:
  - crates/nanocoder-mcp/src/transport.rs  (StdioTransport)
  - crates/nanocoder-mcp/src/client.rs     (McpClient)
  - crates/nanocoder-mcp/src/protocol.rs   (protocol types)
  - crates/nanocoder-cli/src/server.rs     (BridgeServer)
  - crates/nanocoder-core/src/error.rs, tool.rs, message.rs

  External effects (process spawning, pipe I/O, serde, AI clients) are
  modelled by explicit oracle parameters; all control flow, state updates
  and error construction are translated from the source.
-/

namespace NanocoderSpec

/-- Minimal model of serde_json::Value. Numbers are modelled as integers,
which covers every numeric value the verified code paths inspect
(request ids and error codes). -/
inductive Json where
  | null
  | bool (b : Bool)
  | num (n : Int)
  | str (s : String)
  | arr (elems : List Json)
  | obj (fields : List (String × Json))

/-- Value::get(key) / indexing an object by key: Some for object fields,
None on any other variant (indexing a non-object yields Null, whose
as_str() is None — callers below compose the two). -/
def Json.getKey? : Json → String → Option Json
  | .obj fields, key => fields.lookup key
  | _, _ => none

/-- Value::as_str(). -/
def Json.asStr? : Json → Option String
  | .str s => some s
  | _ => none

/-- Value::as_u64(): integral, non-negative numbers only. -/
def Json.asU64? : Json → Option Nat
  | .num n => if 0 ≤ n then some n.toNat else none
  | _ => none

/-- Value::as_array(). -/
def Json.asArr? : Json → Option (List Json)
  | .arr elems => some elems
  | _ => none

/-- Value::as_object(). -/
def Json.asObj? : Json → Option (List (String × Json))
  | .obj fields => some fields
  | _ => none

/-- nanocoder_core::Error (crates/nanocoder-core/src/error.rs). -/
inductive Error where
  | ioErr (msg : String)
  | serialization (msg : String)
  | toolExecution (msg : String)
  | config (msg : String)
  | aiClient (msg : String)
  | invalidMessage (msg : String)
  | other (msg : String)
deriving DecidableEq

/-- Display impl generated by thiserror on nanocoder_core::Error. -/
def Error.display : Error → String
  | .ioErr m => "IO error: " ++ m
  | .serialization m => "Serialization error: " ++ m
  | .toolExecution m => "Tool execution error: " ++ m
  | .config m => "Configuration error: " ++ m
  | .aiClient m => "AI client error: " ++ m
  | .invalidMessage m => "Invalid message format: " ++ m
  | .other m => "" ++ m

/-- std::collections::HashMap::insert on an association-list model:
replaces the value under an existing key in place, appends a new key.
Iteration order of the model is list order. -/
def insertA {α : Type} : List (String × α) → String → α → List (String × α)
  | [], k, v => [(k, v)]
  | p :: rest, k, v =>
    if p.1 = k then (k, v) :: rest else p :: insertA rest k v

/-- std::collections::HashMap::get on the association-list model. -/
def lookupA {α : Type} : List (String × α) → String → Option α
  | [], _ => none
  | p :: rest, k => if p.1 = k then some p.2 else lookupA rest k

/-- Whitespace test used by the str::trim model. -/
def isWs (c : Char) : Bool :=
  c == ' ' || c == '\t' || c == '\n' || c == '\r'

/-- str::trim modelled on the character list: leading and trailing
whitespace removed. -/
def trimString (s : String) : String :=
  String.mk (((s.data.dropWhile isWs).reverse.dropWhile isWs).reverse)

/-- str::to_lowercase modelled characterwise. -/
def toLowerString (s : String) : String :=
  String.mk (s.data.map Char.toLower)

namespace Transport

/-- JsonRpcError (transport.rs). -/
structure JsonRpcError where
  code : Int
  message : String
  data : Option Json

/-- JsonRpcResponse (transport.rs): id is an arbitrary JSON value;
the read loop narrows it with as_u64(). -/
structure JsonRpcResponse where
  jsonrpc : String
  id : Json
  result : Option Json
  error : Option JsonRpcError

/-- State of one StdioTransport (transport.rs) together with the
observation log the correctness statements are about.

Fields mirroring the Rust struct:
- requestId: the AtomicU64 request_id counter (next id to hand out);
- pending: the pending_requests map, id to the oneshot slot, where a slot
  is identified by the token of the send call awaiting it;
- shutdownSent: whether close() has sent on shutdown_tx;
- childAlive: whether the child process has not been killed;
- readerStopped: whether the read_responses loop has exited.

History fields (write-only logs, never read by the operations):
- sent: every (call token, allocated id) pair, in send order;
- resolved: every (call token, response) delivery made by the read loop
  through the call's oneshot slot. -/
structure TransportState where
  requestId : Nat
  pending : List (Nat × Nat)
  shutdownSent : Bool
  childAlive : Bool
  readerStopped : Bool
  sent : List (Nat × Nat)
  resolved : List (Nat × JsonRpcResponse)

/-- StdioTransport::new: request_id starts at 1, pending table empty. -/
def initState : TransportState :=
  { requestId := 1, pending := [], shutdownSent := false, childAlive := true,
    readerStopped := false, sent := [], resolved := [] }

/-- Lookup a pending slot by request id (HashMap::get on pending_requests). -/
def lookupPending : List (Nat × Nat) → Nat → Option Nat
  | [], _ => none
  | p :: rest, i => if p.1 = i then some p.2 else lookupPending rest i

/-- HashMap::remove(&id) on pending_requests. -/
def removePending (l : List (Nat × Nat)) (i : Nat) : List (Nat × Nat) :=
  l.filter (fun p => p.1 ≠ i)

/-- One schedulable event against a transport:
- send k: the front half of send_request issued by call token k —
  fetch_add on request_id plus insertion into pending_requests
  (transport.rs lines 111-124);
- arrive resp: the read loop processes one stdout line that parsed as
  resp (transport.rs lines 175-207);
- eofEvent: the read loop observes end-of-stream (Ok(0)) and breaks. -/
inductive TransportEvent where
  | send (caller : Nat)
  | arrive (resp : JsonRpcResponse)
  | eofEvent

/-- Step function translated from transport.rs.

send: id = request_id.fetch_add(1); pending_requests.insert(id, tx).

arrive: if the loop has stopped the line is never read; if shutdown was
signalled the loop breaks at the top-of-loop try_recv check before
reading; otherwise the line is parsed and, when response.id.as_u64()
names a pending id, that slot is removed and fulfilled with the
response — unmatched ids are discarded.

eofEvent: the loop breaks; the pending table is not drained. -/
def step (s : TransportState) : TransportEvent → TransportState
  | .send k =>
    { s with requestId := s.requestId + 1,
             pending := (s.requestId, k) :: s.pending,
             sent := s.sent ++ [(k, s.requestId)] }
  | .arrive resp =>
    if s.readerStopped then s
    else if s.shutdownSent then { s with readerStopped := true }
    else
      match resp.id.asU64? with
      | none => s
      | some i =>
        match lookupPending s.pending i with
        | none => s
        | some k =>
          { s with pending := removePending s.pending i,
                   resolved := s.resolved ++ [(k, resp)] }
  | .eofEvent =>
    if s.readerStopped then s else { s with readerStopped := true }

/-- Run a sequence of events. -/
def run (s : TransportState) (evs : List TransportEvent) : TransportState :=
  evs.foldl step s

/-- StdioTransport::close (transport.rs lines 218-231): sends on
shutdown_tx and kills the child process. The pending_requests table is
not touched: no pending slot is resolved. -/
def close (s : TransportState) : TransportState :=
  { s with shutdownSent := true, childAlive := false }

/-- The call tokens of the send events of an event list, in order. -/
def sendersOf (evs : List TransportEvent) : List Nat :=
  evs.filterMap fun e => match e with | .send k => some k | _ => none

/-- The correlation invariant of a transport:
ids handed out so far are below the counter and strictly increase in
send order; every pending slot was registered by the send call that owns
its id; every delivered response carries the id of the call it was
delivered to; pending ids are unique; delivered response ids are
pairwise distinct, below the counter, and no longer pending. -/
structure GoodState (s : TransportState) : Prop where
  pendLt : ∀ p ∈ s.pending, p.1 < s.requestId
  sentLt : ∀ q ∈ s.sent, q.2 < s.requestId
  sentInc : List.Pairwise (fun a b : Nat × Nat => a.2 < b.2) s.sent
  pendSent : ∀ p ∈ s.pending, (p.2, p.1) ∈ s.sent
  resCorr : ∀ r ∈ s.resolved, ∃ i, (r.1, i) ∈ s.sent ∧ r.2.id.asU64? = some i
  pendNodup : (s.pending.map Prod.fst).Nodup
  resIdsNe : List.Pairwise
    (fun a b : Nat × JsonRpcResponse => a.2.id.asU64? ≠ b.2.id.asU64?) s.resolved
  resOld : ∀ r ∈ s.resolved, ∀ i, r.2.id.asU64? = some i →
    i < s.requestId ∧ i ∉ s.pending.map Prod.fst

end Transport

/-- Traverse a list with a fallible function (serde semantics: one bad
element fails the whole deserialization). -/
def optionTraverse {α β : Type} (f : α → Option β) : List α → Option (List β)
  | [] => some []
  | x :: xs =>
    match f x, optionTraverse f xs with
    | some y, some ys => some (y :: ys)
    | _, _ => none

/-- ToolParameterSchema (nanocoder-core/src/tool.rs). -/
structure ToolParameterSchema where
  param_type : Option String
  description : Option String
  additional : List (String × Json)

/-- ToolParameters (nanocoder-core/src/tool.rs). -/
structure ToolParameters where
  param_type : String
  properties : List (String × ToolParameterSchema)
  required : List String

/-- ToolFunctionDef (nanocoder-core/src/tool.rs). -/
structure ToolFunctionDef where
  name : String
  description : String
  parameters : ToolParameters

/-- Tool (nanocoder-core/src/tool.rs). -/
structure Tool where
  tool_type : String
  function : ToolFunctionDef

/-- ToolFunction (nanocoder-core/src/message.rs). -/
structure ToolFunction where
  name : String
  arguments : List (String × Json)

/-- ToolCall (nanocoder-core/src/message.rs). -/
structure ToolCall where
  id : String
  function : ToolFunction

/-- serde deserialization of ToolFunction: name (string) and arguments
(object) are both required. -/
def ToolFunction.fromJson? (j : Json) : Option ToolFunction :=
  match (j.getKey? "name").bind Json.asStr?,
        (j.getKey? "arguments").bind Json.asObj? with
  | some n, some args => some { name := n, arguments := args }
  | _, _ => none

/-- serde deserialization of ToolCall: id (string) and function are
both required. -/
def ToolCall.fromJson? (j : Json) : Option ToolCall :=
  match (j.getKey? "id").bind Json.asStr?,
        (j.getKey? "function").bind ToolFunction.fromJson? with
  | some i, some f => some { id := i, function := f }
  | _, _ => none

namespace Mcp

/-- McpServer (nanocoder-mcp/src/protocol.rs). -/
structure McpServer where
  name : String
  command : String
  args : Option (List String)
  env : Option (List (String × String))

/-- McpTool (nanocoder-mcp/src/protocol.rs). -/
structure McpTool where
  name : String
  description : Option String
  input_schema : Option Json

/-- McpInitResult (nanocoder-mcp/src/protocol.rs). -/
structure McpInitResult where
  server_name : String
  success : Bool
  tool_count : Option Nat
  error : Option String

/-- ListToolsResult (nanocoder-mcp/src/protocol.rs). -/
structure ListToolsResult where
  tools : List McpTool
  next_cursor : Option String

/-- ServerInfo (nanocoder-mcp/src/protocol.rs). -/
structure ServerInfo where
  name : String
  version : String

/-- InitializeResult (nanocoder-mcp/src/protocol.rs). The capabilities
field's nested optional structure is kept as its JSON value; the client
code under verification never inspects it. -/
structure InitializeResult where
  protocol_version : String
  capabilities : Json
  server_info : ServerInfo

/-- CallToolParams (nanocoder-mcp/src/protocol.rs). -/
structure CallToolParams where
  name : String
  arguments : Option Json

/-- ToolResultContent (nanocoder-mcp/src/protocol.rs). -/
inductive ToolResultContent where
  | text (t : String)
  | image (data : String) (mimeType : String)
  | resource (res : Json)

/-- CallToolResult (nanocoder-mcp/src/protocol.rs). -/
structure CallToolResult where
  content : List ToolResultContent
  is_error : Option Bool

/-- serde deserialization of the internally tagged ToolResultContent:
the "type" field selects the variant (lowercase names), whose payload
fields are required. -/
def ToolResultContent.fromJson? (j : Json) : Option ToolResultContent :=
  match j.getKey? "type" with
  | some (.str "text") =>
    ((j.getKey? "text").bind Json.asStr?).map ToolResultContent.text
  | some (.str "image") =>
    match (j.getKey? "data").bind Json.asStr?,
          (j.getKey? "mimeType").bind Json.asStr? with
    | some d, some m => some (.image d m)
    | _, _ => none
  | some (.str "resource") =>
    ((j.getKey? "resource")).map ToolResultContent.resource
  | _ => none

/-- serde deserialization of CallToolResult: content (array) is
required, isError is optional (absent or null gives None). -/
def CallToolResult.fromJson? (j : Json) : Option CallToolResult :=
  match j.getKey? "content" with
  | some (.arr elems) =>
    match optionTraverse ToolResultContent.fromJson? elems with
    | some content =>
      match j.getKey? "isError" with
      | none => some { content := content, is_error := none }
      | some .null => some { content := content, is_error := none }
      | some (.bool b) => some { content := content, is_error := some b }
      | some _ => none
    | none => none
  | _ => none

/-- serde deserialization of an optional Vec of strings (absent or null
gives None; a present value must be an array of strings). -/
def parseOptStringList : Option Json → Option (Option (List String))
  | none => some none
  | some .null => some none
  | some (.arr elems) => (optionTraverse Json.asStr? elems).map some
  | some _ => none

/-- serde deserialization of an optional map of strings. -/
def parseOptStringMap : Option Json → Option (Option (List (String × String)))
  | none => some none
  | some .null => some none
  | some (.obj fields) =>
    (optionTraverse (fun p => (Json.asStr? p.2).map fun v => (p.1, v)) fields).map
      some
  | some _ => none

/-- serde deserialization of McpServer: name and command required, args
and env optional. -/
def McpServer.fromJson? (j : Json) : Option McpServer :=
  match (j.getKey? "name").bind Json.asStr?,
        (j.getKey? "command").bind Json.asStr?,
        parseOptStringList (j.getKey? "args"),
        parseOptStringMap (j.getKey? "env") with
  | some n, some c, some args, some env =>
    some { name := n, command := c, args := args, env := env }
  | _, _, _, _ => none

/-- serde deserialization of Vec of McpServer. -/
def parseServerList (j : Json) : Option (List McpServer) :=
  match j with
  | .arr elems => optionTraverse McpServer.fromJson? elems
  | _ => none

/-- McpClient state (nanocoder-mcp/src/client.rs): the transports map
(a live transport is recorded per server name) and the server_tools
map. HashMaps are modelled as association lists; iteration order of the
model is insertion order (a Rust HashMap leaves it unspecified). -/
structure McpClientState where
  transports : List (String × Unit)
  server_tools : List (String × List McpTool)

/-- McpClient::new. -/
def emptyClient : McpClientState :=
  { transports := [], server_tools := [] }

/-- Outcome of the three fallible steps of connect_to_server, one value
per server: StdioTransport::new, then send_request("initialize") plus
the serde parse of its result, then send_request("tools/list") plus the
serde parse of its result. Each step either yields its parsed value or
the nanocoder_core::Error the step would return. -/
structure ServerBehavior where
  spawn : Except Error Unit
  initResult : Except Error InitializeResult
  toolsResult : Except Error ListToolsResult

/-- All three connect steps succeed. -/
def ServerBehavior.allOk (b : ServerBehavior) : Bool :=
  b.spawn.isOk && b.initResult.isOk && b.toolsResult.isOk

/-- McpClient::connect_to_server (client.rs lines 27-61): each step's
failure propagates immediately (the ? operator) before any map is
touched; on success the tool list is stored in server_tools and the
transport in transports, both under the server's name. -/
def connect_to_server (st : McpClientState) (server : McpServer)
    (b : ServerBehavior) : McpClientState × Option Error :=
  match b.spawn with
  | .error e => (st, some e)
  | .ok _ =>
    match b.initResult with
    | .error e => (st, some e)
    | .ok _ =>
      match b.toolsResult with
      | .error e => (st, some e)
      | .ok list_result =>
        ({ server_tools := insertA st.server_tools server.name list_result.tools,
           transports := insertA st.transports server.name () }, none)

/-- McpClient::connect_to_servers (client.rs lines 64-101): the async
blocks are created for every server and then awaited one after another
in order, so the connects run sequentially; each yields one
McpInitResult — on success the tool count is read back from
server_tools, on failure the error's Display string is recorded. -/
def connect_to_servers (st : McpClientState) :
    List (McpServer × ServerBehavior) → McpClientState × List McpInitResult
  | [] => (st, [])
  | (server, b) :: rest =>
    let stepRes := connect_to_server st server b
    let outcome : McpInitResult :=
      match stepRes.2 with
      | none =>
        { server_name := server.name, success := true,
          tool_count := (lookupA stepRes.1.server_tools server.name).map List.length,
          error := none }
      | some e =>
        { server_name := server.name, success := false,
          tool_count := none, error := some e.display }
    let restRun := connect_to_servers stepRes.1 rest
    (restRun.1, outcome :: restRun.2)

/-- Conversion of one JSON-schema property value into a
ToolParameterSchema (client.rs lines 132-141). -/
def convertParamSchema (value : Json) : ToolParameterSchema :=
  { param_type := (value.getKey? "type").bind Json.asStr?,
    description := (value.getKey? "description").bind Json.asStr?,
    additional :=
      match value.asObj? with
      | some fields =>
        fields.filter fun p => !(p.1 == "type") && !(p.1 == "description")
      | none => [] }

/-- Conversion of one McpTool into the nanocoder Tool format
(client.rs lines 109-161). -/
def convertMcpTool (server_name : String) (mcp_tool : McpTool) : Tool :=
  let schema := mcp_tool.input_schema.getD (Json.obj [])
  let properties := (schema.getKey? "properties").getD (Json.obj [])
  let required :=
    match schema.getKey? "required" with
    | some req => (req.asArr?.getD []).filterMap Json.asStr?
    | none => []
  let param_properties :=
    match properties.asObj? with
    | some props_obj =>
      props_obj.foldl (fun acc kv => insertA acc kv.1 (convertParamSchema kv.2)) []
    | none => []
  { tool_type := "function",
    function :=
      { name := mcp_tool.name,
        description :=
          match mcp_tool.description with
          | some desc => "[MCP:" ++ server_name ++ "] " ++ desc
          | none => "MCP tool from " ++ server_name,
        parameters :=
          { param_type := "object", properties := param_properties,
            required := required } } }

/-- McpClient::get_all_tools (client.rs lines 104-168): every stored
tool of every server is converted and pushed, in map iteration order —
there is no deduplication by tool name. -/
def get_all_tools (st : McpClientState) : List Tool :=
  st.server_tools.foldl (fun acc p => acc ++ p.2.map (convertMcpTool p.1)) []

/-- McpClient::get_tool_mapping (client.rs lines 171-182): tool name to
server name, built by repeated insertion in map iteration order — a
later insertion under the same tool name overwrites the earlier one. -/
def get_tool_mapping (st : McpClientState) : List (String × String) :=
  st.server_tools.foldl
    (fun mapping p => p.2.foldl (fun m t => insertA m t.name p.1) mapping) []

/-- First text content block, if any (client.rs lines 219-223). -/
def extractText : List ToolResultContent → Option String
  | [] => none
  | .text t :: _ => some t
  | _ :: rest => extractText rest

/-- Minimal JSON string escaping used by the compact serializer model. -/
def escapeString (s : String) : String :=
  s.foldl
    (fun acc c =>
      if c = '\\' then acc ++ "\\\\"
      else if c = '"' then acc ++ "\\\"" else acc.push c) ""

mutual
/-- Compact JSON rendering, modelling serde_json::to_string. -/
def renderJson : Json → String
  | .null => "null"
  | .bool true => "true"
  | .bool false => "false"
  | .num n => toString n
  | .str s => "\"" ++ escapeString s ++ "\""
  | .arr elems => "[" ++ renderArr elems ++ "]"
  | .obj fields => "\x7b" ++ renderObj fields ++ "\x7d"

def renderArr : List Json → String
  | [] => ""
  | [x] => renderJson x
  | x :: xs => renderJson x ++ "," ++ renderArr xs

def renderObj : List (String × Json) → String
  | [] => ""
  | [p] => "\"" ++ escapeString p.1 ++ "\":" ++ renderJson p.2
  | p :: ps =>
    "\"" ++ escapeString p.1 ++ "\":" ++ renderJson p.2 ++ "," ++ renderObj ps
end

/-- serde serialization of one ToolResultContent (tag field first). -/
def ToolResultContent.toJson : ToolResultContent → Json
  | .text t => .obj [("type", .str "text"), ("text", .str t)]
  | .image d m =>
    .obj [("type", .str "image"), ("data", .str d), ("mimeType", .str m)]
  | .resource r => .obj [("type", .str "resource"), ("resource", r)]

/-- serde_json::to_string of the content vector (client.rs line 226). -/
def serializeContent (content : List ToolResultContent) : String :=
  renderJson (.arr (content.map ToolResultContent.toJson))

/-- Processing of a tools/call result value (client.rs lines 208-226):
parse it as CallToolResult; a true is_error flag becomes the fixed
application error; otherwise the first text block is the result, and
with no text block the serialized content is. In the source the serde
parse error's own text is appended to the failure message; the model
keeps the fixed prefix. -/
def handleCallToolResponse (result : Json) : Except Error String :=
  match CallToolResult.fromJson? result with
  | none => .error (.toolExecution "Failed to parse tool call result")
  | some call_result =>
    if call_result.is_error = some true then
      .error (.toolExecution "Tool execution returned an error")
    else
      match extractText call_result.content with
      | some text => .ok text
      | none => .ok (serializeContent call_result.content)

/-- McpClient::call_tool (client.rs lines 185-227). respond models
send_request("tools/call", params) on the transport owned by the named
server. -/
def call_tool (st : McpClientState) (tool_name : String) (args : Json)
    (respond : String → CallToolParams → Except Error Json) :
    Except Error String :=
  match lookupA (get_tool_mapping st) tool_name with
  | none => .error (.toolExecution ("MCP tool not found: " ++ tool_name))
  | some server_name =>
    match lookupA st.transports server_name with
    | none =>
      .error (.toolExecution ("No MCP client connected for server: " ++ server_name))
    | some _ =>
      match respond server_name { name := tool_name, arguments := some args } with
      | .error e => .error e
      | .ok result => handleCallToolResponse result

/-- McpClient::disconnect (client.rs lines 250-262): every transport is
drained from the map and closed, then server_tools is cleared. -/
def disconnect (_st : McpClientState) : McpClientState :=
  { transports := [], server_tools := [] }

end Mcp

namespace Bridge

/-- Provider (nanocoder-ai/src/provider.rs). -/
inductive Provider where
  | openai
  | anthropic
deriving DecidableEq

/-- Provider::from_str (provider.rs lines 25-31): case-insensitive;
"claude" is an alias for Anthropic; anything else is None. -/
def Provider.fromStr (s : String) : Option Provider :=
  match toLowerString s with
  | "openai" => some .openai
  | "anthropic" => some .anthropic
  | "claude" => some .anthropic
  | _ => none

/-- An AI client handle as produced by ProviderConfig::build_client,
identified by the provider and api key the builder captured. -/
structure AiClient where
  provider : Provider
  api_key : String
deriving DecidableEq

/-- Modelled from the spec: bridge.rs (JsonRpcRequest) is not under
src/. Field shapes are reconstructed from its server.rs call sites
(request.id.unwrap_or(Value::Null) shows an optional id) and the wire
format of spec section 6. -/
structure JsonRpcRequest where
  id : Option Json
  method : String
  params : Option Json

/-- Modelled from the spec: bridge.rs (JsonRpcError) is not under src/.
The codes are fixed by spec section 6: -32700 parse error, -32601
method not found, -32602 invalid params, -32603 internal error. -/
structure JsonRpcError where
  code : Int
  message : String

/-- Modelled from the spec: JsonRpcError::parse_error. -/
def JsonRpcError.parse_error : JsonRpcError :=
  { code := -32700, message := "Parse error" }

/-- Modelled from the spec: JsonRpcError::method_not_found. -/
def JsonRpcError.method_not_found (m : String) : JsonRpcError :=
  { code := -32601, message := "Method not found: " ++ m }

/-- Modelled from the spec: JsonRpcError::invalid_params. -/
def JsonRpcError.invalid_params (m : String) : JsonRpcError :=
  { code := -32602, message := m }

/-- Modelled from the spec: JsonRpcError::internal_error. -/
def JsonRpcError.internal_error (m : String) : JsonRpcError :=
  { code := -32603, message := m }

/-- Modelled from the spec: bridge.rs (JsonRpcResponse) is not under
src/. A response carries the request's id (an absent id becomes null —
spec: parse errors carry id = null) and either a result or an error. -/
structure JsonRpcResponse where
  id : Json
  result : Option Json
  error : Option JsonRpcError

/-- Modelled from the spec: JsonRpcResponse::success. -/
def JsonRpcResponse.success (id : Json) (result : Json) : JsonRpcResponse :=
  { id := id, result := some result, error := none }

/-- Modelled from the spec: JsonRpcResponse::error (named mkError here
because the field projection takes the source name). -/
def JsonRpcResponse.mkError (id : Option Json) (e : JsonRpcError) :
    JsonRpcResponse :=
  { id := id.getD .null, result := none, error := some e }

/-- BridgeServer state (server.rs lines 14-18): the registered local
tool definitions, the swappable AI-client slot, and the MCP client. -/
structure BridgeState where
  tool_registry : List Tool
  ai_client : Option AiClient
  mcp : Mcp.McpClientState

/-- External collaborators of the bridge handlers, one oracle per
capability interface consumed by server.rs. χ is the parsed ChatRequest
type. -/
structure BridgeOracle (χ : Type) where
  executeTool : ToolCall → Except Error String
  parseChat : Json → Option χ
  chat : AiClient → χ → Except Error Json
  buildClient : Provider → String → Except Error AiClient
  serverBehavior : Mcp.McpServer → Mcp.ServerBehavior
  respond : String → Mcp.CallToolParams → Except Error Json
  serializeTools : List Tool → Json
  serializeInitResults : List Mcp.McpInitResult → Json

/-- BridgeServer::handle_tool_execute (server.rs lines 69-100). -/
def handle_tool_execute {χ : Type} (st : BridgeState) (orc : BridgeOracle χ)
    (request : JsonRpcRequest) : BridgeState × JsonRpcResponse :=
  match request.params with
  | none => (st, .mkError request.id (.invalid_params "Missing params"))
  | some params =>
    match ToolCall.fromJson? params with
    | none => (st, .mkError request.id (.invalid_params "Invalid tool call"))
    | some tool_call =>
      match orc.executeTool tool_call with
      | .ok result =>
        (st, .success (request.id.getD .null) (.obj [("output", .str result)]))
      | .error e =>
        (st, .mkError request.id
          (.internal_error ("Tool execution failed: " ++ e.display)))

/-- BridgeServer::handle_ai_chat (server.rs lines 103-145): the client
slot is checked before the params. -/
def handle_ai_chat {χ : Type} (st : BridgeState) (orc : BridgeOracle χ)
    (request : JsonRpcRequest) : BridgeState × JsonRpcResponse :=
  match st.ai_client with
  | none => (st, .mkError request.id (.internal_error "AI client not initialized"))
  | some client =>
    match request.params with
    | none => (st, .mkError request.id (.invalid_params "Missing params"))
    | some params =>
      match orc.parseChat params with
      | none => (st, .mkError request.id (.invalid_params "Invalid chat request"))
      | some chat_request =>
        match orc.chat client chat_request with
        | .ok response => (st, .success (request.id.getD .null) response)
        | .error e =>
          (st, .mkError request.id
            (.internal_error ("AI chat failed: " ++ e.display)))

/-- BridgeServer::handle_ai_init (server.rs lines 148-182): a missing
or non-string provider falls back to the literal "openai"; an
unrecognized provider string falls back to Provider::OpenAI; a missing
apiKey is Invalid Params; on successful client construction the client
slot is replaced and the status result returned. -/
def handle_ai_init {χ : Type} (st : BridgeState) (orc : BridgeOracle χ)
    (request : JsonRpcRequest) : BridgeState × JsonRpcResponse :=
  match request.params with
  | none => (st, .mkError request.id (.invalid_params "Missing params"))
  | some params =>
    let provider_str := ((params.getKey? "provider").bind Json.asStr?).getD "openai"
    match (params.getKey? "apiKey").bind Json.asStr? with
    | none => (st, .mkError request.id (.invalid_params "Missing apiKey"))
    | some api_key =>
      let provider := (Provider.fromStr provider_str).getD .openai
      match orc.buildClient provider api_key with
      | .ok client =>
        ({ st with ai_client := some client },
         .success (request.id.getD .null) (.obj [("status", .str "initialized")]))
      | .error e =>
        (st, .mkError request.id
          (.internal_error ("Failed to initialize AI client: " ++ e.display)))

/-- BridgeServer::handle_tools_list (server.rs lines 185-189). -/
def handle_tools_list {χ : Type} (st : BridgeState) (orc : BridgeOracle χ)
    (request : JsonRpcRequest) : BridgeState × JsonRpcResponse :=
  (st, .success (request.id.getD .null) (orc.serializeTools st.tool_registry))

/-- BridgeServer::handle_mcp_connect (server.rs lines 192-218). -/
def handle_mcp_connect {χ : Type} (st : BridgeState) (orc : BridgeOracle χ)
    (request : JsonRpcRequest) : BridgeState × JsonRpcResponse :=
  match request.params with
  | none => (st, .mkError request.id (.invalid_params "Missing params"))
  | some params =>
    match Mcp.parseServerList params with
    | none => (st, .mkError request.id (.invalid_params "Invalid server list"))
    | some servers =>
      let inputs := servers.map fun s => (s, orc.serverBehavior s)
      let res := Mcp.connect_to_servers st.mcp inputs
      ({ st with mcp := res.1 },
       .success (request.id.getD .null) (orc.serializeInitResults res.2))

/-- BridgeServer::handle_mcp_list_tools (server.rs lines 221-225). -/
def handle_mcp_list_tools {χ : Type} (st : BridgeState) (orc : BridgeOracle χ)
    (request : JsonRpcRequest) : BridgeState × JsonRpcResponse :=
  (st, .success (request.id.getD .null)
    (orc.serializeTools (Mcp.get_all_tools st.mcp)))

/-- BridgeServer::handle_mcp_call_tool (server.rs lines 228-261). -/
def handle_mcp_call_tool {χ : Type} (st : BridgeState) (orc : BridgeOracle χ)
    (request : JsonRpcRequest) : BridgeState × JsonRpcResponse :=
  match request.params with
  | none => (st, .mkError request.id (.invalid_params "Missing params"))
  | some params =>
    match (params.getKey? "name").bind Json.asStr? with
    | none => (st, .mkError request.id (.invalid_params "Missing tool name"))
    | some tool_name =>
      let args := (params.getKey? "arguments").getD (Json.obj [])
      match Mcp.call_tool st.mcp tool_name args orc.respond with
      | .ok output =>
        (st, .success (request.id.getD .null) (.obj [("output", .str output)]))
      | .error e =>
        (st, .mkError request.id
          (.internal_error ("MCP tool execution failed: " ++ e.display)))

/-- The bridge's fixed method table (the arms of the match in
BridgeServer::handle_request, server.rs lines 52-66). -/
def methodTable : List String :=
  ["tool.execute", "ai.chat", "ai.init", "tools.list",
   "mcp.connect", "mcp.list_tools", "mcp.call_tool"]

/-- BridgeServer::handle_request (server.rs lines 52-66): exact string
match on the method, defaulting to Method Not Found. -/
def handle_request {χ : Type} (st : BridgeState) (orc : BridgeOracle χ)
    (request : JsonRpcRequest) : BridgeState × JsonRpcResponse :=
  if request.method = "tool.execute" then handle_tool_execute st orc request
  else if request.method = "ai.chat" then handle_ai_chat st orc request
  else if request.method = "ai.init" then handle_ai_init st orc request
  else if request.method = "tools.list" then handle_tools_list st orc request
  else if request.method = "mcp.connect" then handle_mcp_connect st orc request
  else if request.method = "mcp.list_tools" then
    handle_mcp_list_tools st orc request
  else if request.method = "mcp.call_tool" then
    handle_mcp_call_tool st orc request
  else (st, .mkError request.id (.method_not_found request.method))

/-- BridgeServer::run (server.rs lines 264-330) over a finite stdin
transcript (the list of lines up to EOF): lines whose trim is empty are
skipped; a line that fails to parse (parse models
serde_json::from_str on the trimmed line) emits a Parse Error response
with a null id and the loop continues; otherwise the parsed request is
handled and its response emitted. Returns the final state and the
emitted responses in order. -/
def runLoop {χ : Type} (st : BridgeState) (orc : BridgeOracle χ)
    (parse : String → Option JsonRpcRequest) :
    List String → BridgeState × List JsonRpcResponse
  | [] => (st, [])
  | line :: rest =>
    let trimmed := trimString line
    if trimmed = "" then runLoop st orc parse rest
    else
      match parse trimmed with
      | none =>
        let restRun := runLoop st orc parse rest
        (restRun.1, JsonRpcResponse.mkError none .parse_error :: restRun.2)
      | some request =>
        let hr := handle_request st orc request
        let restRun := runLoop hr.1 orc parse rest
        (restRun.1, hr.2 :: restRun.2)

end Bridge

/-- Substring test (used to state that an error message does or does
not carry a given text). -/
def containsSubstring (s sub : String) : Bool :=
  (List.range (s.length + 1)).any fun i => (s.drop i).take sub.length == sub

namespace Demo

/-- A response whose id is 1. -/
def respId1 : Transport.JsonRpcResponse :=
  { jsonrpc := "2.0", id := .num 1, result := some (.str "r1"), error := none }

/-- A response whose id is 2. -/
def respId2 : Transport.JsonRpcResponse :=
  { jsonrpc := "2.0", id := .num 2, result := some (.str "r2"), error := none }

/-- Two concurrent sends whose responses arrive in reversed order. -/
def outOfOrderRun : List Transport.TransportEvent :=
  [.send 10, .send 20, .arrive respId2, .arrive respId1]

/-- A handshake result as a well-behaved server would produce it. -/
def initRes : Mcp.InitializeResult :=
  { protocol_version := "2024-11-05", capabilities := .obj [],
    server_info := { name := "srv", version := "1.0" } }

/-- Behavior of a server whose connect steps all succeed and whose
discovery yields the given tools. -/
def okBehavior (tools : List Mcp.McpTool) : Mcp.ServerBehavior :=
  { spawn := .ok (), initResult := .ok initRes,
    toolsResult := .ok { tools := tools, next_cursor := none } }

/-- Behavior of a server whose spawn fails. -/
def failBehavior : Mcp.ServerBehavior :=
  { spawn := .error (.toolExecution "Failed to spawn MCP server: boom"),
    initResult := .error (.toolExecution "Request cancelled"),
    toolsResult := .error (.toolExecution "Request cancelled") }

/-- A tool named x as exposed by the first demo server. -/
def toolX1 : Mcp.McpTool :=
  { name := "x", description := some "A", input_schema := none }

/-- A tool named x as exposed by the second demo server. -/
def toolX2 : Mcp.McpTool :=
  { name := "x", description := some "B", input_schema := none }

/-- First demo server config. -/
def serverS1 : Mcp.McpServer :=
  { name := "s1", command := "c1", args := none, env := none }

/-- Second demo server config. -/
def serverS2 : Mcp.McpServer :=
  { name := "s2", command := "c2", args := none, env := none }

/-- Registry state after connecting s1, which exposes tool x. -/
def oneServerState : Mcp.McpClientState :=
  (Mcp.connect_to_server Mcp.emptyClient serverS1 (okBehavior [toolX1])).1

/-- Registry state after additionally connecting s2, which also
exposes a tool named x. -/
def twoServerState : Mcp.McpClientState :=
  (Mcp.connect_to_server oneServerState serverS2 (okBehavior [toolX2])).1

/-- A registry state in which tool x is in the catalog but its owning
server has no live transport — observable between the two insertions of
connect_to_server (client.rs lines 55-58) or while a disconnect is in
progress. -/
def halfState : Mcp.McpClientState :=
  { transports := [], server_tools := [("s1", [toolX1])] }

/-- A tools/call result whose is-error flag is true and whose text
content is the tool's own message "boom". -/
def boomResult : Json :=
  .obj [("content", .arr [.obj [("type", .str "text"), ("text", .str "boom")]]),
        ("isError", .bool true)]

/-- A fresh bridge state. -/
def bridgeState : Bridge.BridgeState :=
  { tool_registry := [], ai_client := none, mcp := Mcp.emptyClient }

/-- A concrete oracle instance for witnesses. -/
def oracle : Bridge.BridgeOracle Unit :=
  { executeTool := fun _ => .ok "out",
    parseChat := fun _ => some (),
    chat := fun _ _ => .error (.aiClient "down"),
    buildClient := fun p k => .ok { provider := p, api_key := k },
    serverBehavior := fun _ => okBehavior [],
    respond := fun _ _ => .ok boomResult,
    serializeTools := fun _ => .null,
    serializeInitResults := fun _ => .null }

/-- An ai.chat request with no params, sent before any ai.init. -/
def chatReqNoParams : Bridge.JsonRpcRequest :=
  { id := some (.num 7), method := "ai.chat", params := none }

/-- A request whose method is not in the bridge method table. -/
def unknownReq : Bridge.JsonRpcRequest :=
  { id := some (.num 3), method := "bogus.method", params := none }

/-- A tool.execute request with no params. -/
def toolExecReqNoParams : Bridge.JsonRpcRequest :=
  { id := some (.num 4), method := "tool.execute", params := none }

/-- An ai.init request whose provider string is unrecognized and whose
apiKey is the string "k". -/
def aiInitReq : Bridge.JsonRpcRequest :=
  { id := some (.num 9), method := "ai.init",
    params := some (.obj [("provider", .str "gemini"), ("apiKey", .str "k")]) }

end Demo

namespace Transport

theorem lookupPending_mem {l : List (Nat × Nat)} {i k : Nat}
    (h : lookupPending l i = some k) : (i, k) ∈ l := by
  induction l with
  | nil => simp [lookupPending] at h
  | cons hd tl ih =>
    by_cases hi : hd.1 = i
    · have h2 : hd.2 = k := by simpa [lookupPending, hi] using h
      have hhd : hd = (i, k) := by
        cases hd
        simp_all
      rw [hhd]
      exact List.mem_cons_self _ _
    · have h2 : lookupPending tl i = some k := by
        simpa [lookupPending, hi] using h
      exact List.mem_cons_of_mem _ (ih h2)

theorem mem_removePending {l : List (Nat × Nat)} {i : Nat} {p : Nat × Nat}
    (h : p ∈ removePending l i) : p ∈ l :=
  (List.mem_filter.mp h).1

theorem removePending_sublist (l : List (Nat × Nat)) (i : Nat) :
    List.Sublist (removePending l i) l :=
  List.filter_sublist l

theorem map_fst_removePending_subset {l : List (Nat × Nat)} {i j : Nat}
    (h : j ∈ (removePending l i).map Prod.fst) : j ∈ l.map Prod.fst := by
  rcases List.mem_map.mp h with ⟨p, hp, hpj⟩
  exact List.mem_map.mpr ⟨p, mem_removePending hp, hpj⟩

theorem fst_not_mem_removePending (l : List (Nat × Nat)) (i : Nat) :
    i ∉ (removePending l i).map Prod.fst := by
  intro h
  rcases List.mem_map.mp h with ⟨p, hp, hpj⟩
  have := (List.mem_filter.mp hp).2
  simp only [decide_eq_true_eq] at this
  exact this hpj

theorem key_unique {l : List (Nat × Nat)} (h : (l.map Prod.fst).Nodup)
    {k a b : Nat} (ha : (k, a) ∈ l) (hb : (k, b) ∈ l) : a = b := by
  induction l with
  | nil => simp at ha
  | cons hd tl ih =>
    simp only [List.map_cons, List.nodup_cons] at h
    rcases List.mem_cons.mp ha with ha1 | ha1 <;>
      rcases List.mem_cons.mp hb with hb1 | hb1
    · have hab : (k, a) = (k, b) := ha1.trans hb1.symm
      simpa using hab
    · exfalso
      apply h.1
      rw [← ha1]
      exact List.mem_map.mpr ⟨(k, b), hb1, rfl⟩
    · exfalso
      apply h.1
      rw [← hb1]
      exact List.mem_map.mpr ⟨(k, a), ha1, rfl⟩
    · exact ih h.2 ha1 hb1

/-- send preserves the correlation invariant. -/
theorem step_send_good {s : TransportState} (h : GoodState s) (k : Nat) :
    GoodState (step s (.send k)) := by
  simp only [step]
  constructor
  · intro p hp
    rcases List.mem_cons.mp hp with hp1 | hp1
    · simp [hp1]
    · exact Nat.lt_succ_of_lt (h.pendLt p hp1)
  · intro q hq
    rcases List.mem_append.mp hq with hq1 | hq1
    · exact Nat.lt_succ_of_lt (h.sentLt q hq1)
    · simp only [List.mem_singleton] at hq1
      simp [hq1]
  · refine List.pairwise_append.mpr ⟨h.sentInc, List.pairwise_singleton _ _, ?_⟩
    intro a ha b hb
    simp only [List.mem_singleton] at hb
    subst hb
    exact h.sentLt a ha
  · intro p hp
    rcases List.mem_cons.mp hp with hp1 | hp1
    · subst hp1
      exact List.mem_append.mpr (Or.inr (by simp))
    · exact List.mem_append.mpr (Or.inl (h.pendSent p hp1))
  · intro r hr
    rcases h.resCorr r hr with ⟨i, hi, hid⟩
    exact ⟨i, List.mem_append.mpr (Or.inl hi), hid⟩
  · simp only [List.map_cons, List.nodup_cons]
    refine ⟨?_, h.pendNodup⟩
    intro hmem
    rcases List.mem_map.mp hmem with ⟨p, hp, hpj⟩
    exact absurd (hpj ▸ h.pendLt p hp) (Nat.lt_irrefl _)
  · exact h.resIdsNe
  · intro r hr i hid
    rcases h.resOld r hr i hid with ⟨hlt, hnp⟩
    refine ⟨Nat.lt_succ_of_lt hlt, ?_⟩
    intro hmem
    simp only [List.map_cons, List.mem_cons] at hmem
    rcases hmem with hmem | hmem
    · exact absurd (hmem ▸ hlt) (Nat.lt_irrefl _)
    · exact hnp hmem

/-- The read loop processing one line preserves the correlation
invariant, in every branch. -/
theorem step_arrive_good {s : TransportState} (h : GoodState s)
    (resp : JsonRpcResponse) : GoodState (step s (.arrive resp)) := by
  by_cases h1 : s.readerStopped
  · simpa [step, h1] using h
  · by_cases h2 : s.shutdownSent
    · simp only [step, h1, h2, Bool.false_eq_true, if_false, if_true]
      exact { pendLt := h.pendLt, sentLt := h.sentLt, sentInc := h.sentInc,
              pendSent := h.pendSent, resCorr := h.resCorr,
              pendNodup := h.pendNodup, resIdsNe := h.resIdsNe,
              resOld := h.resOld }
    · cases hid : resp.id.asU64? with
      | none => simpa [step, h1, h2, hid] using h
      | some i =>
        cases hlk : lookupPending s.pending i with
        | none => simpa [step, h1, h2, hid, hlk] using h
        | some k =>
          simp only [step, h1, h2, hid, hlk, Bool.false_eq_true, if_false]
          have hik : (i, k) ∈ s.pending := lookupPending_mem hlk
          have himem : i ∈ s.pending.map Prod.fst :=
            List.mem_map.mpr ⟨(i, k), hik, rfl⟩
          constructor
          · intro p hp
            exact h.pendLt p (mem_removePending hp)
          · exact h.sentLt
          · exact h.sentInc
          · intro p hp
            exact h.pendSent p (mem_removePending hp)
          · intro r hr
            rcases List.mem_append.mp hr with hr1 | hr1
            · exact h.resCorr r hr1
            · simp only [List.mem_singleton] at hr1
              subst hr1
              exact ⟨i, h.pendSent (i, k) hik, hid⟩
          · exact h.pendNodup.sublist
              (List.Sublist.map Prod.fst (removePending_sublist _ _))
          · refine List.pairwise_append.mpr
              ⟨h.resIdsNe, List.pairwise_singleton _ _, ?_⟩
            intro a ha b hb
            simp only [List.mem_singleton] at hb
            subst hb
            rcases h.resCorr a ha with ⟨j, _, hj⟩
            have hjnp := (h.resOld a ha j hj).2
            rw [hj, hid]
            intro hcontra
            rw [Option.some.injEq] at hcontra
            exact hjnp (hcontra ▸ himem)
          · intro r hr j hj
            rcases List.mem_append.mp hr with hr1 | hr1
            · rcases h.resOld r hr1 j hj with ⟨hlt, hnp⟩
              refine ⟨hlt, ?_⟩
              intro hmem
              exact hnp (map_fst_removePending_subset hmem)
            · simp only [List.mem_singleton] at hr1
              subst hr1
              rw [hid, Option.some.injEq] at hj
              subst hj
              exact ⟨h.pendLt (i, k) hik, fst_not_mem_removePending _ _⟩

/-- Every event preserves the correlation invariant. -/
theorem step_good {s : TransportState} (h : GoodState s) (e : TransportEvent) :
    GoodState (step s e) := by
  cases e with
  | send k => exact step_send_good h k
  | arrive resp => exact step_arrive_good h resp
  | eofEvent =>
    simp only [step]
    by_cases h1 : s.readerStopped
    · simpa [h1] using h
    · simp only [h1, if_false, Bool.false_eq_true]
      exact { pendLt := h.pendLt, sentLt := h.sentLt, sentInc := h.sentInc,
              pendSent := h.pendSent, resCorr := h.resCorr,
              pendNodup := h.pendNodup, resIdsNe := h.resIdsNe,
              resOld := h.resOld }

theorem run_good (evs : List TransportEvent) {s : TransportState}
    (h : GoodState s) : GoodState (run s evs) := by
  induction evs generalizing s with
  | nil => exact h
  | cons e rest ih => exact ih (step_good h e)

theorem initState_good : GoodState initState := by
  constructor <;> simp [initState]

/-- The sent log of a step grows by exactly the send events. -/
theorem step_sent (s : TransportState) (e : TransportEvent) :
    (step s e).sent = s.sent ++
      (match e with | .send k => [(k, s.requestId)] | _ => []) := by
  cases e with
  | send k => rfl
  | arrive resp =>
    by_cases h1 : s.readerStopped
    · simp [step, h1]
    · by_cases h2 : s.shutdownSent
      · simp [step, h1, h2]
      · cases hid : resp.id.asU64? with
        | none => simp [step, h1, h2, hid]
        | some i =>
          cases hlk : lookupPending s.pending i with
          | none => simp [step, h1, h2, hid, hlk]
          | some k => simp [step, h1, h2, hid, hlk]
  | eofEvent =>
    simp only [step, List.append_nil]
    by_cases h1 : s.readerStopped <;> simp [h1]

/-- After a run, the callers recorded in the sent log are exactly the
send events of the schedule, in order. -/
theorem run_sent_map_fst (evs : List TransportEvent) (s : TransportState) :
    (run s evs).sent.map Prod.fst = s.sent.map Prod.fst ++ sendersOf evs := by
  induction evs generalizing s with
  | nil => simp [run, sendersOf]
  | cons e rest ih =>
    have hstep := step_sent s e
    show (run (step s e) rest).sent.map Prod.fst = _
    rw [ih (step s e), hstep]
    cases e <;> simp [sendersOf, List.filterMap_cons]

end Transport

theorem lookupA_insertA_self {α : Type} (m : List (String × α)) (k : String)
    (v : α) : lookupA (insertA m k v) k = some v := by
  induction m with
  | nil => simp [insertA, lookupA]
  | cons p rest ih =>
    by_cases hp : p.1 = k
    · simp [insertA, lookupA, hp]
    · simp [insertA, lookupA, hp, ih]

namespace Mcp

/-- A tool's converted catalog entry keeps the tool's name. -/
theorem convertMcpTool_name (server_name : String) (t : McpTool) :
    (convertMcpTool server_name t).function.name = t.name := rfl

/-- connect_to_server succeeds exactly when all three steps do. -/
theorem connect_to_server_ok_iff (st : McpClientState) (server : McpServer)
    (b : ServerBehavior) :
    (connect_to_server st server b).2 = none ↔ b.allOk = true := by
  rcases hsp : b.spawn with e | u
  · simp [connect_to_server, hsp, ServerBehavior.allOk, Except.isOk, Except.toBool]
  · rcases hinit : b.initResult with e | ir
    · simp [connect_to_server, hsp, hinit, ServerBehavior.allOk, Except.isOk,
        Except.toBool]
    · rcases htools : b.toolsResult with e | lr
      · simp [connect_to_server, hsp, hinit, htools, ServerBehavior.allOk,
          Except.isOk, Except.toBool]
      · simp [connect_to_server, hsp, hinit, htools, ServerBehavior.allOk,
          Except.isOk, Except.toBool]

/-- A failing connect leaves the registry state untouched. -/
theorem connect_to_server_fail_state (st : McpClientState) (server : McpServer)
    (b : ServerBehavior) (h : b.allOk = false) :
    (connect_to_server st server b).1 = st := by
  rcases hsp : b.spawn with e | u
  · simp [connect_to_server, hsp]
  · rcases hinit : b.initResult with e | ir
    · simp [connect_to_server, hsp, hinit]
    · rcases htools : b.toolsResult with e | lr
      · simp [connect_to_server, hsp, hinit, htools]
      · exfalso
        rw [show b.allOk = true by
          simp [ServerBehavior.allOk, hsp, hinit, htools, Except.isOk,
            Except.toBool]] at h
        simp at h

/-- connect_to_servers yields one outcome per config. -/
theorem connect_to_servers_length (inputs : List (McpServer × ServerBehavior))
    (st : McpClientState) :
    (connect_to_servers st inputs).2.length = inputs.length := by
  induction inputs generalizing st with
  | nil => simp [connect_to_servers]
  | cons p rest ih =>
    obtain ⟨server, b⟩ := p
    simp [connect_to_servers, ih]

/-- Each outcome carries the name of its config, in order. -/
theorem connect_to_servers_names (inputs : List (McpServer × ServerBehavior))
    (st : McpClientState) :
    (connect_to_servers st inputs).2.map (fun r => r.server_name) =
      inputs.map (fun p => p.1.name) := by
  induction inputs generalizing st with
  | nil => simp [connect_to_servers]
  | cons p rest ih =>
    obtain ⟨server, b⟩ := p
    cases ho : (connect_to_server st server b).2 with
    | none => simp [connect_to_servers, ho, ih]
    | some e => simp [connect_to_servers, ho, ih]

/-- Each outcome's success flag records whether that server's own
connect steps all succeeded, independent of the other servers. -/
theorem connect_to_servers_success (inputs : List (McpServer × ServerBehavior))
    (st : McpClientState) :
    (connect_to_servers st inputs).2.map (fun r => r.success) =
      inputs.map (fun p => p.2.allOk) := by
  induction inputs generalizing st with
  | nil => simp [connect_to_servers]
  | cons p rest ih =>
    obtain ⟨server, b⟩ := p
    cases ho : (connect_to_server st server b).2 with
    | none =>
      have hok : b.allOk = true := (connect_to_server_ok_iff st server b).mp ho
      simp [connect_to_servers, ho, ih, hok]
    | some e =>
      have hnotok : ¬ b.allOk = true := by
        intro hok
        rw [← connect_to_server_ok_iff st server b] at hok
        rw [ho] at hok
        exact Option.noConfusion hok
      have hfalse : b.allOk = false := by
        cases hb : b.allOk
        · rfl
        · exact absurd hb hnotok
      simp [connect_to_servers, ho, ih, hfalse]

end Mcp

/-- C1: for every schedule of send calls (identified by pairwise
distinct call tokens) and response arrivals on one session, the
allocated request ids strictly increase in send order (so no id is
ever reused within the session's lifetime), every response delivered
to a call's slot carries exactly that call's own request id, and no
call's slot is fulfilled twice — independent of the order in which
responses arrive on the child's stdout. -/
theorem c1_concurrent_send_correlation (evs : List Transport.TransportEvent)
    (hsenders : (Transport.sendersOf evs).Nodup) :
    ((Transport.run Transport.initState evs).sent.map Prod.snd).Pairwise (· < ·) ∧
    (∀ r ∈ (Transport.run Transport.initState evs).resolved,
      ∃ i, (r.1, i) ∈ (Transport.run Transport.initState evs).sent ∧
        r.2.id.asU64? = some i) ∧
    ((Transport.run Transport.initState evs).resolved.map Prod.fst).Nodup := by
  have hg : Transport.GoodState (Transport.run Transport.initState evs) :=
    Transport.run_good evs Transport.initState_good
  have hsentfst : (Transport.run Transport.initState evs).sent.map Prod.fst =
      Transport.sendersOf evs := by
    have hru := Transport.run_sent_map_fst evs Transport.initState
    simpa [Transport.initState] using hru
  refine ⟨List.pairwise_map.mpr hg.sentInc, hg.resCorr, ?_⟩
  have hsentNodup :
      ((Transport.run Transport.initState evs).sent.map Prod.fst).Nodup := by
    rw [hsentfst]
    exact hsenders
  have hpair : (Transport.run Transport.initState evs).resolved.Pairwise
      (fun a b => a.1 ≠ b.1) := by
    refine hg.resIdsNe.imp_of_mem ?_
    intro a b ha hb hne heq
    rcases hg.resCorr a ha with ⟨i, hai, haid⟩
    rcases hg.resCorr b hb with ⟨j, hbj, hbid⟩
    rw [heq] at hai
    have hij : i = j := Transport.key_unique hsentNodup hai hbj
    exact hne (by rw [haid, hbid, hij])
  exact List.pairwise_map.mpr hpair

/-- Witness for C1: two concurrent sends (call tokens 10 and 20) whose
responses arrive in reversed order; token 10 gets id 1 and resolves
with the id-1 response, token 20 gets id 2 and resolves with the id-2
response. -/
theorem c1_concurrent_send_correlation_witness :
    (Transport.sendersOf Demo.outOfOrderRun).Nodup ∧
    (((Transport.run Transport.initState Demo.outOfOrderRun).sent.map
        Prod.snd).Pairwise (· < ·) ∧
      (∀ r ∈ (Transport.run Transport.initState Demo.outOfOrderRun).resolved,
        ∃ i, (r.1, i) ∈ (Transport.run Transport.initState Demo.outOfOrderRun).sent ∧
          r.2.id.asU64? = some i) ∧
      ((Transport.run Transport.initState Demo.outOfOrderRun).resolved.map
        Prod.fst).Nodup) :=
  ⟨by decide, c1_concurrent_send_correlation Demo.outOfOrderRun (by decide)⟩

/-- C2: the code violates the claim. StdioTransport::close only sends
the shutdown signal and kills the child (transport.rs lines 218-231);
it never touches pending_requests, and the read loop's end-of-stream
branch breaks without draining the table either. Concretely, with one
request pending (id 1), after close the slot is still pending and no
resolution was ever delivered; in general close and end-of-stream
leave pending and resolved untouched. -/
theorem c2_close_leaves_pending_unresolved :
    (Transport.run Transport.initState [.send 0]).pending = [(1, 0)] ∧
    (Transport.close (Transport.run Transport.initState [.send 0])).pending =
      [(1, 0)] ∧
    (Transport.close (Transport.run Transport.initState [.send 0])).resolved =
      [] ∧
    (∀ s : Transport.TransportState,
      (Transport.close s).pending = s.pending ∧
      (Transport.close s).resolved = s.resolved ∧
      (Transport.step s .eofEvent).pending = s.pending ∧
      (Transport.step s .eofEvent).resolved = s.resolved) := by
  refine ⟨rfl, rfl, rfl, ?_⟩
  intro s
  refine ⟨rfl, rfl, ?_, ?_⟩ <;>
    · simp only [Transport.step]
      by_cases h1 : s.readerStopped <;> simp [h1]

/-- C3 counterexample: after connecting sessions s1 and s2, which both
expose a tool named "x", the aggregated catalog returned by
get_all_tools holds TWO entries named "x", not exactly one —
get_all_tools (client.rs lines 104-168) performs no deduplication by
tool name. -/
theorem c3_counterexample :
    ((Mcp.get_all_tools Demo.twoServerState).filter
      (fun t => t.function.name == "x")).length = 2 ∧
    ¬ ((Mcp.get_all_tools Demo.twoServerState).filter
      (fun t => t.function.name == "x")).length = 1 := by
  refine ⟨rfl, ?_⟩
  intro h
  have h2 : ((Mcp.get_all_tools Demo.twoServerState).filter
      (fun t => t.function.name == "x")).length = 2 := rfl
  omega

/-- C3 amended: with two sessions registered that both expose a tool
named x, get_all_tools contains one entry named x per owning session
(hence two entries), while the routing table get_tool_mapping binds x
exactly once, to the session whose catalog is iterated last — in the
insertion-ordered map model, the most recently connected one (a Rust
HashMap leaves the iteration order, and hence the surviving owner,
unspecified); connecting the two sessions produces exactly such a
registry state. -/
theorem c3_amended_catalog (st : Mcp.McpClientState) (sA sB : Mcp.McpServer)
    (tA tB : Mcp.McpTool) (x : String) (iA iB : Mcp.InitializeResult)
    (cA cB : Option String)
    (hne : sA.name ≠ sB.name) (hA : tA.name = x) (hB : tB.name = x)
    (hst : st.server_tools = [(sA.name, [tA]), (sB.name, [tB])]) :
    ((Mcp.get_all_tools st).filter (fun t => t.function.name == x)).length = 2 ∧
    lookupA (Mcp.get_tool_mapping st) x = some sB.name ∧
    (Mcp.get_tool_mapping st).filter (fun p => p.1 == x) = [(x, sB.name)] ∧
    (Mcp.connect_to_server
      (Mcp.connect_to_server Mcp.emptyClient sA
        { spawn := .ok (), initResult := .ok iA,
          toolsResult := .ok { tools := [tA], next_cursor := cA } }).1 sB
      { spawn := .ok (), initResult := .ok iB,
        toolsResult := .ok { tools := [tB], next_cursor := cB } }).1.server_tools =
      [(sA.name, [tA]), (sB.name, [tB])] := by
  refine ⟨?_, ?_, ?_, ?_⟩
  · simp [Mcp.get_all_tools, hst, Mcp.convertMcpTool_name, hA, hB]
  · simp [Mcp.get_tool_mapping, hst, hA, hB, insertA, lookupA]
  · simp [Mcp.get_tool_mapping, hst, hA, hB, insertA]
  · simp [Mcp.connect_to_server, Mcp.emptyClient, insertA, hne]

/-- Witness for C3 amended: the two demo sessions s1 and s2 each
exposing a tool named "x". -/
theorem c3_amended_catalog_witness :
    ((Mcp.get_all_tools Demo.twoServerState).filter
      (fun t => t.function.name == "x")).length = 2 ∧
    lookupA (Mcp.get_tool_mapping Demo.twoServerState) "x" =
      some Demo.serverS2.name ∧
    (Mcp.get_tool_mapping Demo.twoServerState).filter (fun p => p.1 == "x") =
      [("x", Demo.serverS2.name)] ∧
    (Mcp.connect_to_server
      (Mcp.connect_to_server Mcp.emptyClient Demo.serverS1
        { spawn := .ok (), initResult := .ok Demo.initRes,
          toolsResult := .ok { tools := [Demo.toolX1], next_cursor := none } }).1
      Demo.serverS2
      { spawn := .ok (), initResult := .ok Demo.initRes,
        toolsResult := .ok { tools := [Demo.toolX2], next_cursor := none } }).1.server_tools =
      [(Demo.serverS1.name, [Demo.toolX1]), (Demo.serverS2.name, [Demo.toolX2])] :=
  c3_amended_catalog Demo.twoServerState Demo.serverS1 Demo.serverS2
    Demo.toolX1 Demo.toolX2 "x" Demo.initRes Demo.initRes none none
    (by decide) rfl rfl rfl

/-- C4 counterexample: for a tools/call response whose is-error flag is
true and whose text content is the tool's own message "boom", call_tool
fails with the fixed message "Tool execution returned an error"
(client.rs lines 212-216) — the tool's own message is not carried. -/
theorem c4_counterexample :
    Mcp.call_tool Demo.oneServerState "x" (.obj [])
      (fun _ _ => .ok Demo.boomResult) =
      .error (.toolExecution "Tool execution returned an error") ∧
    containsSubstring "Tool execution returned an error" "boom" = false :=
  ⟨rfl, by decide⟩

/-- C4 amended: for every tool-server response to call_tool whose
is-error flag is true, call_tool returns an application-level failure
distinguished from transport failures by the fixed message "Tool
execution returned an error"; the tool's own reported text is
discarded, not carried verbatim. -/
theorem c4_amended_application_error (st : Mcp.McpClientState)
    (tool_name server_name : String) (args j : Json)
    (crt : Mcp.CallToolResult)
    (respond : String → Mcp.CallToolParams → Except Error Json)
    (hmap : lookupA (Mcp.get_tool_mapping st) tool_name = some server_name)
    (htr : lookupA st.transports server_name = some ())
    (hresp : respond server_name { name := tool_name, arguments := some args } =
      .ok j)
    (hparse : Mcp.CallToolResult.fromJson? j = some crt)
    (herr : crt.is_error = some true) :
    Mcp.call_tool st tool_name args respond =
      .error (.toolExecution "Tool execution returned an error") := by
  simp [Mcp.call_tool, hmap, htr, hresp, Mcp.handleCallToolResponse, hparse,
    herr]

/-- Witness for C4 amended: the demo session with tool x and the
is-error response carrying "boom". -/
theorem c4_amended_application_error_witness :
    Mcp.call_tool Demo.oneServerState "x" (.obj [])
      (fun _ _ => .ok Demo.boomResult) =
      .error (.toolExecution "Tool execution returned an error") :=
  c4_amended_application_error Demo.oneServerState "x" "s1" (.obj [])
    Demo.boomResult
    { content := [.text "boom"], is_error := some true }
    (fun _ _ => .ok Demo.boomResult) rfl rfl rfl rfl rfl

/-- C5: connect_to_server performs no partial registration: if any of
its steps (spawn, initialize handshake, tool discovery) fails, the call
returns that error and the registry state is unchanged — neither a
transport nor a tool catalog is registered under the server's name
beyond what was already there; when every step succeeds, both the tool
catalog and the transport are stored under the server's name. -/
theorem c5_connect_atomic (st : Mcp.McpClientState) (server : Mcp.McpServer)
    (b : Mcp.ServerBehavior) :
    ((Mcp.connect_to_server st server b).2.isSome →
      (Mcp.connect_to_server st server b).1 = st) ∧
    ((Mcp.connect_to_server st server b).2 = none →
      ∃ lr, b.toolsResult = .ok lr ∧
        lookupA (Mcp.connect_to_server st server b).1.server_tools server.name =
          some lr.tools ∧
        lookupA (Mcp.connect_to_server st server b).1.transports server.name =
          some ()) := by
  rcases hsp : b.spawn with e | u
  · simp [Mcp.connect_to_server, hsp]
  · rcases hinit : b.initResult with e | ir
    · simp [Mcp.connect_to_server, hsp, hinit]
    · rcases htools : b.toolsResult with e | lr
      · simp [Mcp.connect_to_server, hsp, hinit, htools]
      · simp [Mcp.connect_to_server, hsp, hinit, htools, lookupA_insertA_self]

/-- Witness for C5: a failing spawn leaves the empty registry empty,
and a fully successful connect stores catalog and transport under the
server's name. -/
theorem c5_connect_atomic_witness :
    ((Mcp.connect_to_server Mcp.emptyClient Demo.serverS2 Demo.failBehavior).1 =
      Mcp.emptyClient) ∧
    (∃ lr, (Demo.okBehavior [Demo.toolX1]).toolsResult = .ok lr ∧
      lookupA (Mcp.connect_to_server Mcp.emptyClient Demo.serverS1
        (Demo.okBehavior [Demo.toolX1])).1.server_tools Demo.serverS1.name =
        some lr.tools ∧
      lookupA (Mcp.connect_to_server Mcp.emptyClient Demo.serverS1
        (Demo.okBehavior [Demo.toolX1])).1.transports Demo.serverS1.name =
        some ()) :=
  ⟨(c5_connect_atomic Mcp.emptyClient Demo.serverS2 Demo.failBehavior).1
      (by decide),
   (c5_connect_atomic Mcp.emptyClient Demo.serverS1
      (Demo.okBehavior [Demo.toolX1])).2 rfl⟩

/-- C6: connect_to_servers returns exactly one outcome per config, each
carrying that config's name and a success flag reflecting that server's
own connect result; and for a pair [A succeeds, B fails], outcomes are
returned for both (with A's tool count and B's error message), B's
failure neither aborts the call nor undoes A's registration — the
final state is exactly the state after A's connect, so A's tools are
still returned by get_all_tools afterwards. -/
theorem c6_failure_isolated (st : Mcp.McpClientState)
    (inputs : List (Mcp.McpServer × Mcp.ServerBehavior))
    (A B : Mcp.McpServer) (iA : Mcp.InitializeResult)
    (lrA : Mcp.ListToolsResult) (bB : Mcp.ServerBehavior)
    (hB : bB.allOk = false) :
    ((Mcp.connect_to_servers st inputs).2.length = inputs.length ∧
     (Mcp.connect_to_servers st inputs).2.map (fun r => r.server_name) =
       inputs.map (fun p => p.1.name) ∧
     (Mcp.connect_to_servers st inputs).2.map (fun r => r.success) =
       inputs.map (fun p => p.2.allOk)) ∧
    ((Mcp.connect_to_servers Mcp.emptyClient
        [(A, { spawn := .ok (), initResult := .ok iA, toolsResult := .ok lrA }),
         (B, bB)]).1 =
      (Mcp.connect_to_server Mcp.emptyClient A
        { spawn := .ok (), initResult := .ok iA, toolsResult := .ok lrA }).1 ∧
     Mcp.get_all_tools (Mcp.connect_to_servers Mcp.emptyClient
        [(A, { spawn := .ok (), initResult := .ok iA, toolsResult := .ok lrA }),
         (B, bB)]).1 =
       lrA.tools.map (Mcp.convertMcpTool A.name) ∧
     ∃ msg, (Mcp.connect_to_servers Mcp.emptyClient
        [(A, { spawn := .ok (), initResult := .ok iA, toolsResult := .ok lrA }),
         (B, bB)]).2 =
       [{ server_name := A.name, success := true,
          tool_count := some lrA.tools.length, error := none },
        { server_name := B.name, success := false,
          tool_count := none, error := some msg }]) := by
  have hstA : (Mcp.connect_to_server Mcp.emptyClient A
      { spawn := .ok (), initResult := .ok iA, toolsResult := .ok lrA }).1 =
      { transports := [(A.name, ())],
        server_tools := [(A.name, lrA.tools)] } := by
    simp [Mcp.connect_to_server, Mcp.emptyClient, insertA]
  obtain ⟨e, he⟩ : ∃ e, (Mcp.connect_to_server
      (Mcp.connect_to_server Mcp.emptyClient A
        { spawn := .ok (), initResult := .ok iA, toolsResult := .ok lrA }).1
      B bB).2 = some e := by
    cases h2 : (Mcp.connect_to_server
        (Mcp.connect_to_server Mcp.emptyClient A
          { spawn := .ok (), initResult := .ok iA, toolsResult := .ok lrA }).1
        B bB).2 with
    | none =>
      have hok := (Mcp.connect_to_server_ok_iff _ B bB).mp h2
      rw [hB] at hok
      exact absurd hok (by simp)
    | some e => exact ⟨e, rfl⟩
  have hstate := Mcp.connect_to_server_fail_state
    (Mcp.connect_to_server Mcp.emptyClient A
      { spawn := .ok (), initResult := .ok iA, toolsResult := .ok lrA }).1
    B bB hB
  refine ⟨⟨Mcp.connect_to_servers_length inputs st,
    Mcp.connect_to_servers_names inputs st,
    Mcp.connect_to_servers_success inputs st⟩, ?_, ?_, ⟨e.display, ?_⟩⟩
  · simp only [Mcp.connect_to_servers]
    rw [hstate]
  · simp only [Mcp.connect_to_servers]
    rw [hstate, hstA]
    simp [Mcp.get_all_tools]
  · simp only [Mcp.connect_to_servers]
    rw [he, hstA]
    simp [Mcp.connect_to_server, Mcp.emptyClient, insertA, lookupA]

/-- Witness for C6: demo pair where s1 (exposing tool x) succeeds and
s2 fails to spawn. -/
theorem c6_failure_isolated_witness :
    ((Mcp.connect_to_servers Mcp.emptyClient
        [(Demo.serverS1, Demo.okBehavior [Demo.toolX1]),
         (Demo.serverS2, Demo.failBehavior)]).2.length = 2 ∧
      Mcp.get_all_tools (Mcp.connect_to_servers Mcp.emptyClient
        [(Demo.serverS1,
          { spawn := .ok (), initResult := .ok Demo.initRes,
            toolsResult := .ok { tools := [Demo.toolX1], next_cursor := none } }),
         (Demo.serverS2, Demo.failBehavior)]).1 =
        [Demo.toolX1].map (Mcp.convertMcpTool Demo.serverS1.name) ∧
      ∃ msg, (Mcp.connect_to_servers Mcp.emptyClient
        [(Demo.serverS1,
          { spawn := .ok (), initResult := .ok Demo.initRes,
            toolsResult := .ok { tools := [Demo.toolX1], next_cursor := none } }),
         (Demo.serverS2, Demo.failBehavior)]).2 =
        [{ server_name := Demo.serverS1.name, success := true,
           tool_count := some 1, error := none },
         { server_name := Demo.serverS2.name, success := false,
           tool_count := none, error := some msg }]) := by
  have happ := c6_failure_isolated Mcp.emptyClient
    [(Demo.serverS1, Demo.okBehavior [Demo.toolX1]),
     (Demo.serverS2, Demo.failBehavior)]
    Demo.serverS1 Demo.serverS2 Demo.initRes
    { tools := [Demo.toolX1], next_cursor := none } Demo.failBehavior
    (by decide)
  exact ⟨by rw [happ.1.1]; rfl, happ.2.2.1, happ.2.2.2⟩

/-- C7 counterexample: after disconnect (which clears the tool catalog
as well as the transports, client.rs lines 250-262), call_tool for the
previously registered tool x fails with the not-found error, not with
the not-connected error the claim requires. -/
theorem c7_counterexample :
    Mcp.call_tool (Mcp.disconnect Demo.oneServerState) "x" (.obj [])
      (fun _ _ => .ok Demo.boomResult) =
      .error (.toolExecution "MCP tool not found: x") ∧
    Mcp.call_tool (Mcp.disconnect Demo.oneServerState) "x" (.obj [])
      (fun _ _ => .ok Demo.boomResult) ≠
      .error (.toolExecution "No MCP client connected for server: s1") := by
  refine ⟨rfl, ?_⟩
  intro h
  rw [show Mcp.call_tool (Mcp.disconnect Demo.oneServerState) "x" (.obj [])
      (fun _ _ => .ok Demo.boomResult) =
      .error (.toolExecution "MCP tool not found: x") from rfl] at h
  simp at h

/-- C7 amended: call_tool resolves the owning session from the routing
table: an unmapped name fails with the not-found error; a name mapped
to a server with no live transport (observable between the catalog and
transport registrations) fails with the not-connected error rather
than hanging; with both present the invocation is forwarded to the
owning session's transport. disconnect() clears the catalog together
with the transports, so call_tool after disconnect yields the
not-found error — an error either way, never a hang. -/
theorem c7_amended_routing (st : Mcp.McpClientState) (tool_name : String)
    (args : Json)
    (respond : String → Mcp.CallToolParams → Except Error Json) :
    (lookupA (Mcp.get_tool_mapping st) tool_name = none →
      Mcp.call_tool st tool_name args respond =
        .error (.toolExecution ("MCP tool not found: " ++ tool_name))) ∧
    (∀ server_name,
      lookupA (Mcp.get_tool_mapping st) tool_name = some server_name →
      lookupA st.transports server_name = none →
      Mcp.call_tool st tool_name args respond =
        .error (.toolExecution ("No MCP client connected for server: " ++
          server_name))) ∧
    (∀ server_name,
      lookupA (Mcp.get_tool_mapping st) tool_name = some server_name →
      lookupA st.transports server_name = some () →
      Mcp.call_tool st tool_name args respond =
        (respond server_name { name := tool_name, arguments := some args }).bind
          Mcp.handleCallToolResponse) ∧
    Mcp.call_tool (Mcp.disconnect st) tool_name args respond =
      .error (.toolExecution ("MCP tool not found: " ++ tool_name)) := by
  refine ⟨?_, ?_, ?_, ?_⟩
  · intro h
    simp [Mcp.call_tool, h]
  · intro server_name h1 h2
    simp [Mcp.call_tool, h1, h2]
  · intro server_name h1 h2
    simp only [Mcp.call_tool, h1, h2]
    cases hr : respond server_name { name := tool_name, arguments := some args } with
    | error e => simp [hr, Except.bind]
    | ok j => simp [hr, Except.bind]
  · simp [Mcp.call_tool, Mcp.disconnect, Mcp.get_tool_mapping, lookupA]

/-- Witness for C7 amended: an unknown tool name fails not-found; the
half-registered demo state fails not-connected; the fully registered
demo state forwards to the transport; after disconnect the known tool
fails not-found. -/
theorem c7_amended_routing_witness :
    (Mcp.call_tool Demo.oneServerState "y" (.obj [])
      (fun _ _ => .ok Demo.boomResult) =
      .error (.toolExecution ("MCP tool not found: " ++ "y"))) ∧
    (Mcp.call_tool Demo.halfState "x" (.obj [])
      (fun _ _ => .ok Demo.boomResult) =
      .error (.toolExecution ("No MCP client connected for server: " ++ "s1"))) ∧
    (Mcp.call_tool Demo.oneServerState "x" (.obj [])
      (fun _ _ => .ok Demo.boomResult) =
      ((fun (_ : String) (_ : Mcp.CallToolParams) => Except.ok (ε := Error)
        Demo.boomResult) "s1"
        { name := "x", arguments := some (.obj []) }).bind
        Mcp.handleCallToolResponse) ∧
    Mcp.call_tool (Mcp.disconnect Demo.oneServerState) "x" (.obj [])
      (fun _ _ => .ok Demo.boomResult) =
      .error (.toolExecution ("MCP tool not found: " ++ "x")) :=
  ⟨(c7_amended_routing Demo.oneServerState "y" (.obj [])
      (fun _ _ => .ok Demo.boomResult)).1 rfl,
   (c7_amended_routing Demo.halfState "x" (.obj [])
      (fun _ _ => .ok Demo.boomResult)).2.1 "s1" rfl rfl,
   (c7_amended_routing Demo.oneServerState "x" (.obj [])
      (fun _ _ => .ok Demo.boomResult)).2.2.1 "s1" rfl rfl,
   (c7_amended_routing Demo.oneServerState "x" (.obj [])
      (fun _ _ => .ok Demo.boomResult)).2.2.2⟩

/-- C8: for every input line to the bridge read loop, a line whose trim
is blank produces no response and the loop continues with the remaining
lines; a non-blank line that fails to parse as a JSON-RPC request
produces exactly one Parse Error response — id null, code -32700 — and
the loop goes on to accept and process the remaining lines (server.rs
lines 272-301). -/
theorem c8_read_loop_resilient {χ : Type} (st : Bridge.BridgeState)
    (orc : Bridge.BridgeOracle χ)
    (parse : String → Option Bridge.JsonRpcRequest) (line : String)
    (rest : List String) :
    (trimString line = "" →
      Bridge.runLoop st orc parse (line :: rest) =
        Bridge.runLoop st orc parse rest) ∧
    (trimString line ≠ "" → parse (trimString line) = none →
      Bridge.runLoop st orc parse (line :: rest) =
        ((Bridge.runLoop st orc parse rest).1,
         Bridge.JsonRpcResponse.mkError none .parse_error ::
           (Bridge.runLoop st orc parse rest).2)) ∧
    (Bridge.JsonRpcResponse.mkError none .parse_error).id = .null ∧
    (Bridge.JsonRpcResponse.mkError none .parse_error).error =
      some { code := -32700, message := "Parse error" } := by
  refine ⟨?_, ?_, rfl, rfl⟩
  · intro h
    simp [Bridge.runLoop, h]
  · intro h1 h2
    simp [Bridge.runLoop, h1, h2]

/-- Witness for C8: a blank line is skipped; the non-JSON line
"not json" yields the Parse Error response and the loop proceeds. -/
theorem c8_read_loop_resilient_witness :
    (Bridge.runLoop Demo.bridgeState Demo.oracle (fun _ => none)
        ("" :: ["not json"]) =
      Bridge.runLoop Demo.bridgeState Demo.oracle (fun _ => none)
        ["not json"]) ∧
    (Bridge.runLoop Demo.bridgeState Demo.oracle (fun _ => none)
        ("not json" :: []) =
      ((Bridge.runLoop Demo.bridgeState Demo.oracle (fun _ => none) []).1,
       Bridge.JsonRpcResponse.mkError none .parse_error ::
         (Bridge.runLoop Demo.bridgeState Demo.oracle (fun _ => none) []).2)) :=
  ⟨(c8_read_loop_resilient Demo.bridgeState Demo.oracle (fun _ => none)
      "" ["not json"]).1 rfl,
   (c8_read_loop_resilient Demo.bridgeState Demo.oracle (fun _ => none)
      "not json" []).2.1 (by decide) rfl⟩

/-- C9 counterexample: an ai.chat request with missing params received
before any client initialization yields code -32603 ("AI client not
initialized") — the handler checks the client slot before the params
(server.rs lines 103-123) — not the -32602 the claim requires for a
matched handler with missing params. -/
theorem c9_counterexample :
    ((Bridge.handle_request Demo.bridgeState Demo.oracle
        Demo.chatReqNoParams).2.error.map (fun e => e.code)) =
      some (-32603) ∧
    ¬ ((Bridge.handle_request Demo.bridgeState Demo.oracle
        Demo.chatReqNoParams).2.error.map (fun e => e.code)) =
      some (-32602) ∧
    Demo.chatReqNoParams.params = none ∧
    Demo.chatReqNoParams.method ∈ Bridge.methodTable :=
  ⟨rfl, by decide, rfl, by decide⟩

/-- C9 amended: the method is matched by exact string comparison
against the fixed table and an unmatched method yields -32601; a
matched handler with missing or malformed params yields -32602 —
except ai.chat, which checks client initialization first and yields
-32603 ("AI client not initialized") when no client is set, even with
missing params; any other handler failure yields -32603 with a
descriptive message; success yields the handler's result with the
request's id echoed (absent ids become null). -/
theorem c9_amended_dispatch {χ : Type} (st : Bridge.BridgeState)
    (orc : Bridge.BridgeOracle χ) (request : Bridge.JsonRpcRequest) :
    (request.method ∉ Bridge.methodTable →
      (Bridge.handle_request st orc request).2 =
        .mkError request.id (.method_not_found request.method)) ∧
    (request.method = "tool.execute" → request.params = none →
      (Bridge.handle_request st orc request).2 =
        .mkError request.id (.invalid_params "Missing params")) ∧
    (∀ p, request.method = "tool.execute" → request.params = some p →
      ToolCall.fromJson? p = none →
      (Bridge.handle_request st orc request).2 =
        .mkError request.id (.invalid_params "Invalid tool call")) ∧
    (∀ p tc e, request.method = "tool.execute" → request.params = some p →
      ToolCall.fromJson? p = some tc → orc.executeTool tc = .error e →
      (Bridge.handle_request st orc request).2 =
        .mkError request.id
          (.internal_error ("Tool execution failed: " ++ e.display))) ∧
    (∀ p tc out, request.method = "tool.execute" → request.params = some p →
      ToolCall.fromJson? p = some tc → orc.executeTool tc = .ok out →
      (Bridge.handle_request st orc request).2 =
        .success (request.id.getD .null) (.obj [("output", .str out)])) ∧
    (request.method = "mcp.connect" → request.params = none →
      (Bridge.handle_request st orc request).2 =
        .mkError request.id (.invalid_params "Missing params")) ∧
    (request.method = "mcp.call_tool" → request.params = none →
      (Bridge.handle_request st orc request).2 =
        .mkError request.id (.invalid_params "Missing params")) ∧
    (∀ p, request.method = "mcp.call_tool" → request.params = some p →
      (p.getKey? "name").bind Json.asStr? = none →
      (Bridge.handle_request st orc request).2 =
        .mkError request.id (.invalid_params "Missing tool name")) ∧
    (request.method = "ai.init" → request.params = none →
      (Bridge.handle_request st orc request).2 =
        .mkError request.id (.invalid_params "Missing params")) ∧
    (∀ p, request.method = "ai.init" → request.params = some p →
      (p.getKey? "apiKey").bind Json.asStr? = none →
      (Bridge.handle_request st orc request).2 =
        .mkError request.id (.invalid_params "Missing apiKey")) ∧
    (request.method = "ai.chat" → st.ai_client = none →
      (Bridge.handle_request st orc request).2 =
        .mkError request.id (.internal_error "AI client not initialized")) ∧
    (∀ c, request.method = "ai.chat" → st.ai_client = some c →
      request.params = none →
      (Bridge.handle_request st orc request).2 =
        .mkError request.id (.invalid_params "Missing params")) ∧
    ((Bridge.JsonRpcError.method_not_found request.method).code = -32601 ∧
     (Bridge.JsonRpcError.invalid_params "Missing params").code = -32602 ∧
     (∀ m, (Bridge.JsonRpcError.internal_error m).code = -32603)) := by
  refine ⟨?_, ?_, ?_, ?_, ?_, ?_, ?_, ?_, ?_, ?_, ?_, ?_, rfl, rfl, fun _ => rfl⟩
  · intro hm
    simp only [Bridge.methodTable, List.mem_cons, List.not_mem_nil, or_false,
      not_or] at hm
    simp [Bridge.handle_request, hm]
  · intro hm hp
    simp [Bridge.handle_request, hm, Bridge.handle_tool_execute, hp]
  · intro p hm hp hparse
    simp [Bridge.handle_request, hm, Bridge.handle_tool_execute, hp, hparse]
  · intro p tc e hm hp hparse hexec
    simp [Bridge.handle_request, hm, Bridge.handle_tool_execute, hp, hparse,
      hexec]
  · intro p tc out hm hp hparse hexec
    simp [Bridge.handle_request, hm, Bridge.handle_tool_execute, hp, hparse,
      hexec]
  · intro hm hp
    simp [Bridge.handle_request, hm, Bridge.handle_mcp_connect, hp]
  · intro hm hp
    simp [Bridge.handle_request, hm, Bridge.handle_mcp_call_tool, hp]
  · intro p hm hp hname
    simp [Bridge.handle_request, hm, Bridge.handle_mcp_call_tool, hp, hname]
  · intro hm hp
    simp [Bridge.handle_request, hm, Bridge.handle_ai_init, hp]
  · intro p hm hp hkey
    simp [Bridge.handle_request, hm, Bridge.handle_ai_init, hp, hkey]
  · intro hm hc
    simp [Bridge.handle_request, hm, Bridge.handle_ai_chat, hc]
  · intro c hm hc hp
    simp [Bridge.handle_request, hm, Bridge.handle_ai_chat, hc, hp]

/-- Witness for C9 amended: an unmatched method yields the -32601
response; tool.execute without params yields the -32602 response. -/
theorem c9_amended_dispatch_witness :
    ((Bridge.handle_request Demo.bridgeState Demo.oracle Demo.unknownReq).2 =
      .mkError Demo.unknownReq.id (.method_not_found "bogus.method")) ∧
    ((Bridge.handle_request Demo.bridgeState Demo.oracle
        Demo.toolExecReqNoParams).2 =
      .mkError Demo.toolExecReqNoParams.id (.invalid_params "Missing params")) :=
  ⟨(c9_amended_dispatch Demo.bridgeState Demo.oracle Demo.unknownReq).1
      (by decide),
   (c9_amended_dispatch Demo.bridgeState Demo.oracle
      Demo.toolExecReqNoParams).2.1 rfl rfl⟩

/-- C10: for every ai.init request whose params carry an apiKey string,
a missing or unrecognized provider string is silently replaced by the
OpenAI provider rather than rejected: the bridge builds an OpenAI
client with the given key and, when construction succeeds, stores it
in the client slot and answers with status "initialized" — not with an
Invalid Params error (server.rs lines 148-182). -/
theorem c10_ai_init_provider_default {χ : Type} (st : Bridge.BridgeState)
    (orc : Bridge.BridgeOracle χ) (request : Bridge.JsonRpcRequest)
    (p : Json) (api_key : String) (client : Bridge.AiClient)
    (hm : request.method = "ai.init")
    (hp : request.params = some p)
    (hkey : (p.getKey? "apiKey").bind Json.asStr? = some api_key)
    (hprov : ∀ s, (p.getKey? "provider").bind Json.asStr? = some s →
      Bridge.Provider.fromStr s = none)
    (hbuild : orc.buildClient .openai api_key = .ok client) :
    Bridge.handle_request st orc request =
      ({ st with ai_client := some client },
       .success (request.id.getD .null)
         (.obj [("status", .str "initialized")])) := by
  have hopenai : Bridge.Provider.fromStr "openai" = some .openai := rfl
  cases hps : (p.getKey? "provider").bind Json.asStr? with
  | none =>
    simp [Bridge.handle_request, hm, Bridge.handle_ai_init, hp, hps, hkey,
      hopenai, hbuild]
  | some s =>
    have hnone := hprov s hps
    simp [Bridge.handle_request, hm, Bridge.handle_ai_init, hp, hps, hkey,
      hnone, hbuild]

/-- Witness for C10: an ai.init request with provider "gemini"
(unrecognized) and apiKey "k" initializes an OpenAI client with key "k"
and answers status initialized. -/
theorem c10_ai_init_provider_default_witness :
    Bridge.handle_request Demo.bridgeState Demo.oracle Demo.aiInitReq =
      ({ Demo.bridgeState with
          ai_client := some { provider := .openai, api_key := "k" } },
       .success (.num 9) (.obj [("status", .str "initialized")])) :=
  c10_ai_init_provider_default Demo.bridgeState Demo.oracle Demo.aiInitReq
    (.obj [("provider", .str "gemini"), ("apiKey", .str "k")]) "k"
    { provider := .openai, api_key := "k" }
    rfl rfl rfl
    (fun s hs => by
      injection hs with h
      subst h
      rfl)
    rfl

end NanocoderSpec
